import Mathlib

/-!
A shallow embedding of `src/interactive_charting.py` (the single function
`equity_chart_with_signals`) and proofs of the specification claims about it.

Modelling choices:
* A pandas DataFrame indexed by ascending timestamps is modelled as a list of
  rows; each row carries its timestamp (`Int`, a sortable date surrogate), a
  total numeric-cell lookup and a total boolean-cell lookup.  The frame also
  carries its column list (used by the candlestick validation).
* `df.loc[start_date:end_date]` on an ascending index is label slicing,
  inclusive at both ends: it keeps exactly the rows whose timestamp lies in
  the closed interval, in their original order, so it is `List.filter`.
* Plotly traces are modelled as an inductive `Trace` recording exactly the
  data the code passes to the plotting library (names, x/y lists, marker
  style, candlestick colors); layout options not touched by any claim are
  omitted.
* `raise ValueError(...)` sites are modelled by the error kinds of the spec
  taxonomy, one constructor per raise site (`signalNamesAbsent` and
  `signalLengthMismatch` both belong to the spec kind SignalConfigMismatch).
* The Python `while len(lst) < num_signals: lst.extend(lst)` loop doubles the
  list (CPython `extend` snapshots the argument length first).  It diverges
  exactly when the list is empty and `num_signals` positive, and otherwise
  terminates within `num_signals.toNat + 1` iterations because each iteration
  at least increments the length of a non-empty list.  It is embedded as the
  fuelled `growListAux` with that fuel bound; `growList ... = none` models
  divergence of the loop (proved below: `none` occurs exactly on the empty
  list with positive target).
* `list.extend` mutates the caller's list in place.  The caller-observable
  final contents of the two optional marker-list arguments are returned in
  the `Outcome` alongside the figure data, so mutation of arguments is
  statable.  The input frame itself is only read (and the code works on
  `df.loc[...].copy()`), so it has no observable mutation to record.
* The overall result type is `Option (Except ChartError Outcome)`: `none`
  models non-termination, `some (.error e)` a raised validation error,
  `some (.ok o)` a normal return.
-/

/-- One row of the input table: its timestamp and total lookups for numeric
cells (price / OHLC columns) and boolean cells (signal columns). -/
structure Row where
  ts : Int
  num : String → Int
  flag : String → Bool

/-- The input table: its column names and its rows in ascending timestamp
order (the ascending-index invariant of the spec data model). -/
structure DataFrame where
  columns : List String
  rows : List Row

/-- The validation errors, one constructor per `raise ValueError` site in the
source, grouped by the spec's error taxonomy (`signalNamesAbsent` and
`signalLengthMismatch` are the two SignalConfigMismatch raise sites). -/
inductive ChartError where
  | invalidChartType
  | missingColumns (missing : List String)
  | signalNamesAbsent
  | signalLengthMismatch (got expected : Int)
deriving DecidableEq

/-- Whether an error belongs to the spec kind SignalConfigMismatch. -/
def ChartError.isSignalConfigMismatch : ChartError → Bool
  | .signalNamesAbsent => true
  | .signalLengthMismatch _ _ => true
  | _ => false

/-- A figure trace, recording the data the code hands to the plotting
library: `line` for the price line, `candlestick` for the OHLC trace,
`markers` for one signal overlay. -/
inductive Trace where
  | line (name : String) (x : List Int) (y : List Int)
  | candlestick (x : List Int) (o h l c : List Int)
      (increasing_line_color decreasing_line_color : String)
  | markers (name : String) (x : List Int) (y : List Int)
      (symbol : String) (color : String)
deriving DecidableEq

/-- Whether a trace is a signal marker overlay. -/
def Trace.isMarker : Trace → Bool
  | .markers _ _ _ _ _ => true
  | _ => false

/-- The observable outcome of a successful call: the traces and title of the
returned figure, plus the caller-visible final contents of the two optional
marker-list arguments (`none` when the argument was absent), which records
the in-place `extend` mutation the code performs on supplied lists. -/
structure Outcome where
  traces : List Trace
  title : String
  symbols_after : Option (List String)
  colors_after : Option (List String)
deriving DecidableEq

/-- `default_symbols` of the source (line 71), the 7-entry default palette. -/
def default_symbols : List String :=
  ["triangle-down", "triangle-up", "circle", "square", "diamond", "cross", "x"]

/-- `default_colors` of the source (line 72), the 7-entry default palette. -/
def default_colors : List String :=
  ["green", "red", "blue", "purple", "orange", "teal", "magenta"]

/-- `required_cols` of the source (line 56): the OHLC columns candlestick
mode requires. -/
def required_cols : List String := ["open", "high", "low", "close"]

/-- Python `str.capitalize`: first character upper-cased, the rest
lower-cased (used for the line-trace name `f'{price_column.capitalize()} Price'`). -/
def pyCapitalize (s : String) : String :=
  match s.toList with
  | [] => ""
  | c :: cs => String.mk (c.toUpper :: cs.map Char.toLower)

/-- Fuelled unfolding of `while len(xs) < n: xs.extend(xs)`.  One fuel unit
per loop iteration; `none` when fuel runs out with the guard still true. -/
def growListAux : Nat → List String → Int → Option (List String)
  | 0, xs, n => if (xs.length : Int) < n then none else some xs
  | fuel + 1, xs, n =>
      if (xs.length : Int) < n then
        if xs = [] then none else growListAux fuel (xs ++ xs) n
      else some xs

/-- The marker-list growth loop of the source (lines 81-85): doubles the list
until its length reaches `n`.  `none` models divergence of the Python loop.
The fuel `n.toNat + 1` is always sufficient for a non-empty list (each
iteration grows the length by at least one, see `growListAux_of_le`), and on
the empty list the loop is recognised as divergent at any fuel, so the fuel
bound never changes an answer. -/
def growList (xs : List String) (n : Int) : Option (List String) :=
  growListAux (n.toNat + 1) xs n

/-- The fail-fast validation block of the source (lines 51-65), in source
order: chart type, candlestick required columns, signal-name presence,
signal-name length. -/
def validate (df : DataFrame) (chart_type : String) (num_signals : Int)
    (signal_column_names : Option (List String)) : Option ChartError :=
  if ¬ (chart_type = "line" ∨ chart_type = "candlestick") then
    some .invalidChartType
  else
    let missing_cols := required_cols.filter (fun c => !(df.columns.contains c))
    if chart_type = "candlestick" ∧ missing_cols ≠ [] then
      some (.missingColumns missing_cols)
    else if 0 < num_signals ∧ signal_column_names = none then
      some .signalNamesAbsent
    else
      match signal_column_names with
      | some l =>
          if (l.length : Int) ≠ num_signals then
            some (.signalLengthMismatch l.length num_signals)
          else none
      | none => none

/-- The figure-building part of the source (lines 88-158), given the already
grown marker lists `syms` and `cols`: the price trace (line 91-112), one
marker trace per signal index (lines 115-136), the title, and the final
caller-visible marker-list contents. -/
def mkOutcome (df : DataFrame) (start_date end_date : Int)
    (chart_type price_column : String) (num_signals : Int)
    (signal_column_names : Option (List String)) (title : String)
    (syms cols : List String)
    (candlestick_increasing_color candlestick_decreasing_color : String)
    (marker_symbols marker_colors : Option (List String)) : Outcome :=
  let df_filtered := df.rows.filter
    (fun r => decide (start_date ≤ r.ts) && decide (r.ts ≤ end_date))
  let priceTrace :=
    if chart_type = "line" then
      Trace.line (pyCapitalize price_column ++ " Price")
        (df_filtered.map (fun r => r.ts))
        (df_filtered.map (fun r => r.num price_column))
    else
      Trace.candlestick (df_filtered.map (fun r => r.ts))
        (df_filtered.map (fun r => r.num "open"))
        (df_filtered.map (fun r => r.num "high"))
        (df_filtered.map (fun r => r.num "low"))
        (df_filtered.map (fun r => r.num "close"))
        candlestick_increasing_color candlestick_decreasing_color
  let nameList := signal_column_names.getD []
  let sigTraces := (List.range num_signals.toNat).map (fun i =>
    let signal_col := nameList.getD i ""
    let sel := df_filtered.filter (fun r => r.flag signal_col)
    Trace.markers signal_col
      (sel.map (fun r => r.ts))
      (sel.map (fun r => r.num price_column))
      (syms.getD (i % syms.length) "")
      (cols.getD (i % cols.length) ""))
  { traces := priceTrace :: sigTraces
    title := title
    symbols_after := marker_symbols.map (fun _ => syms)
    colors_after := marker_colors.map (fun _ => cols) }

/-- Everything after validation: default-palette substitution (lines 74-78),
the two growth loops (lines 81-85, `none` models their divergence), then the
figure build. -/
def buildCore (df : DataFrame) (start_date end_date : Int)
    (chart_type price_column : String) (num_signals : Int)
    (signal_column_names : Option (List String)) (title : String)
    (marker_symbols marker_colors : Option (List String))
    (candlestick_increasing_color candlestick_decreasing_color : String) :
    Option Outcome :=
  match growList (marker_symbols.getD default_symbols) num_signals,
        growList (marker_colors.getD default_colors) num_signals with
  | some syms, some cols =>
      some (mkOutcome df start_date end_date chart_type price_column
        num_signals signal_column_names title syms cols
        candlestick_increasing_color candlestick_decreasing_color
        marker_symbols marker_colors)
  | _, _ => none

/-- `equity_chart_with_signals` of the source: validation first (errors are
raised before any trace is built), then the figure build.  `none` models a
call that never returns. -/
def equity_chart_with_signals (df : DataFrame) (start_date end_date : Int)
    (chart_type price_column : String) (num_signals : Int)
    (signal_column_names : Option (List String)) (title : String)
    (marker_symbols marker_colors : Option (List String))
    (candlestick_increasing_color candlestick_decreasing_color : String) :
    Option (Except ChartError Outcome) :=
  match validate df chart_type num_signals signal_column_names with
  | some e => some (.error e)
  | none =>
      (buildCore df start_date end_date chart_type price_column num_signals
        signal_column_names title marker_symbols marker_colors
        candlestick_increasing_color candlestick_decreasing_color).map Except.ok

/-- The error a call raised, if any (`none` both for a normal return and for
a diverging call). -/
def raisedError (res : Option (Except ChartError Outcome)) : Option ChartError :=
  match res with
  | some (.error e) => some e
  | _ => none

/-- Whether a call returned normally with a figure satisfying `p`. -/
def figureSatisfies (p : Outcome → Bool) :
    Option (Except ChartError Outcome) → Bool
  | some (.ok out) => p out
  | _ => false

/-- A sample table row at timestamp `t`: every numeric cell reads `t * 10`
and every boolean cell is true exactly at timestamps 4 and 6. -/
def rowAt (t : Int) : Row :=
  { ts := t, num := fun _ => t * 10, flag := fun _ => t == 4 || t == 6 }

/-- A sample table with only a `close` column and no rows, for witnesses of
the validation claims. -/
def dfLine : DataFrame := { columns := ["close"], rows := [] }

/-- A sample 10-row table (timestamps 1..10) with a price column `close` and
a boolean signal column `sig` true at timestamps 4 and 6. -/
def dfTen : DataFrame :=
  { columns := ["close", "sig"]
    rows := [rowAt 1, rowAt 2, rowAt 3, rowAt 4, rowAt 5, rowAt 6, rowAt 7,
             rowAt 8, rowAt 9, rowAt 10] }

/-- Expected outcome of the C2 witness call: two signals on an empty table,
supplied symbol list of length 3 (long enough, so returned unchanged). -/
def c2Out : Outcome :=
  { traces := [.line "Close Price" [] [],
               .markers "s1" [] [] "a" "green",
               .markers "s2" [] [] "b" "red"]
    title := "t", symbols_after := some ["a", "b", "c"], colors_after := none }

/-- Expected outcome of the C6 witness call: `dfTen` sliced to `[3, 7]`, no
signals. -/
def c6Out : Outcome :=
  { traces := [.line "Close Price" [3, 4, 5, 6, 7] [30, 40, 50, 60, 70]]
    title := "t", symbols_after := none, colors_after := none }

/-- Expected outcome of the C7 witness call: `dfTen` sliced to `[3, 7]` with
the one signal column `sig`, true on exactly the rows at timestamps 4 and 6. -/
def c7Out : Outcome :=
  { traces := [.line "Close Price" [3, 4, 5, 6, 7] [30, 40, 50, 60, 70],
               .markers "sig" [4, 6] [40, 60] "triangle-down" "green"]
    title := "t", symbols_after := none, colors_after := none }

/-! ### Lemmas about the growth loop -/

/-- A successful run of the fuelled loop ends with a list at least as long as
the target whose original list is a prefix (the loop only appends). -/
theorem growListAux_some (fuel : Nat) (xs ys : List String) (n : Int)
    (h : growListAux fuel xs n = some ys) :
    n ≤ (ys.length : Int) ∧ xs <+: ys := by
  induction fuel generalizing xs with
  | zero =>
      by_cases hlt : (xs.length : Int) < n
      · simp [growListAux, hlt] at h
      · simp [growListAux, hlt] at h
        subst h
        exact ⟨not_lt.1 hlt, List.prefix_rfl⟩
  | succ fuel ih =>
      by_cases hlt : (xs.length : Int) < n
      · by_cases hnil : xs = []
        · subst hnil
          simp only [List.length_nil, Nat.cast_zero] at hlt
          simp [growListAux, hlt] at h
        · simp only [growListAux, if_pos hlt, if_neg hnil] at h
          obtain ⟨hlen, hpre⟩ := ih (xs ++ xs) h
          exact ⟨hlen, (List.prefix_append xs xs).trans hpre⟩
      · simp [growListAux, hlt] at h
        subst h
        exact ⟨not_lt.1 hlt, List.prefix_rfl⟩

/-- Fuel sufficiency: on a non-empty list, `n.toNat + 1` iterations always
reach the target, because every iteration grows the length by at least one. -/
theorem growListAux_of_le (fuel : Nat) (xs : List String) (n : Int)
    (hx : xs ≠ []) (hf : n ≤ (xs.length : Int) + fuel) :
    ∃ ys, growListAux fuel xs n = some ys := by
  induction fuel generalizing xs with
  | zero =>
      refine ⟨xs, ?_⟩
      have : ¬ (xs.length : Int) < n := by
        simpa using hf
      simp [growListAux, this]
  | succ fuel ih =>
      by_cases hlt : (xs.length : Int) < n
      · have hlen : 1 ≤ xs.length := List.length_pos.2 hx
        have hrec : n ≤ ((xs ++ xs).length : Int) + fuel := by
          have h1 : (1 : Int) ≤ (xs.length : Int) := by exact_mod_cast hlen
          have := hf
          simp only [List.length_append, Nat.cast_add] at *
          omega
        obtain ⟨ys, hys⟩ := ih (xs ++ xs) (by simp [hx]) hrec
        exact ⟨ys, by simp only [growListAux, if_pos hlt, if_neg hx]; exact hys⟩
      · exact ⟨xs, by simp [growListAux, hlt]⟩

/-- The growth loop terminates on every non-empty list, and its result is at
least as long as the target and extends the original (never truncated). -/
theorem growList_of_ne_nil (xs : List String) (n : Int) (hx : xs ≠ []) :
    ∃ ys, growList xs n = some ys ∧ n ≤ (ys.length : Int) ∧ xs <+: ys := by
  have hf : n ≤ (xs.length : Int) + (n.toNat + 1) := by
    have := Int.self_le_toNat n
    omega
  obtain ⟨ys, hys⟩ := growListAux_of_le (n.toNat + 1) xs n hx hf
  obtain ⟨hlen, hpre⟩ := growListAux_some _ _ _ _ hys
  exact ⟨ys, hys, hlen, hpre⟩

/-- The growth loop is the identity when the list already reaches the target
length (in particular for every list when the target is not positive). -/
theorem growList_of_le (xs : List String) (n : Int)
    (h : n ≤ (xs.length : Int)) : growList xs n = some xs := by
  simp [growList, growListAux, not_lt.2 h]

/-- The loop `while len(lst) < n: lst.extend(lst)` diverges exactly on the
empty list with a positive target: `none` is returned in precisely that case. -/
theorem growList_none_iff (xs : List String) (n : Int) :
    growList xs n = none ↔ (xs = [] ∧ 0 < n) := by
  constructor
  · intro h
    by_cases hx : xs = []
    · refine ⟨hx, ?_⟩
      by_contra hn
      rw [growList_of_le xs n (by subst hx; simpa using hn)] at h
      exact Option.noConfusion h
    · obtain ⟨ys, hys, -, -⟩ := growList_of_ne_nil xs n hx
      rw [hys] at h
      exact Option.noConfusion h
  · rintro ⟨hx, hn⟩
    subst hx
    simp [growList, growListAux, hn]

/-! ### Inversion lemmas for the main function -/

/-- A normal return happens exactly when validation passes and the build
(including both growth loops) terminates with that outcome. -/
theorem equity_ok_inversion (df : DataFrame) (start_date end_date : Int)
    (chart_type price_column : String) (num_signals : Int)
    (signal_column_names : Option (List String)) (title : String)
    (marker_symbols marker_colors : Option (List String)) (ci cd : String)
    (out : Outcome)
    (h : equity_chart_with_signals df start_date end_date chart_type
      price_column num_signals signal_column_names title marker_symbols
      marker_colors ci cd = some (.ok out)) :
    validate df chart_type num_signals signal_column_names = none ∧
    buildCore df start_date end_date chart_type price_column num_signals
      signal_column_names title marker_symbols marker_colors ci cd
      = some out := by
  unfold equity_chart_with_signals at h
  cases hv : validate df chart_type num_signals signal_column_names with
  | some e => rw [hv] at h; simp at h
  | none =>
      rw [hv] at h
      cases hb : buildCore df start_date end_date chart_type price_column
          num_signals signal_column_names title marker_symbols marker_colors
          ci cd with
      | none => rw [hb] at h; simp at h
      | some o =>
          rw [hb] at h
          simp only [Option.map_some, Option.some.injEq] at h
          cases h
          exact ⟨rfl, rfl⟩

/-- A successful build means both growth loops terminated and the outcome is
the figure built from the grown lists. -/
theorem buildCore_inversion (df : DataFrame) (start_date end_date : Int)
    (chart_type price_column : String) (num_signals : Int)
    (signal_column_names : Option (List String)) (title : String)
    (marker_symbols marker_colors : Option (List String)) (ci cd : String)
    (out : Outcome)
    (h : buildCore df start_date end_date chart_type price_column num_signals
      signal_column_names title marker_symbols marker_colors ci cd
      = some out) :
    ∃ syms cols,
      growList (marker_symbols.getD default_symbols) num_signals = some syms ∧
      growList (marker_colors.getD default_colors) num_signals = some cols ∧
      out = mkOutcome df start_date end_date chart_type price_column
        num_signals signal_column_names title syms cols ci cd
        marker_symbols marker_colors := by
  unfold buildCore at h
  cases hs : growList (marker_symbols.getD default_symbols) num_signals with
  | none => rw [hs] at h; simp at h
  | some syms =>
      cases hc : growList (marker_colors.getD default_colors) num_signals with
      | none => rw [hs, hc] at h; simp at h
      | some cols =>
          rw [hs, hc] at h
          simp only [Option.some.injEq] at h
          exact ⟨syms, cols, rfl, rfl, h.symm⟩

/-! ### General lemmas about the main function -/

/-- Every raised error comes from the validation block: the call's raised
error (if any) is exactly what `validate` reports, so validation errors are
raised before any trace is built and the build phase raises nothing. -/
theorem raisedError_eq_validate (df : DataFrame) (start_date end_date : Int)
    (chart_type price_column : String) (num_signals : Int)
    (signal_column_names : Option (List String)) (title : String)
    (marker_symbols marker_colors : Option (List String)) (ci cd : String) :
    raisedError (equity_chart_with_signals df start_date end_date chart_type
      price_column num_signals signal_column_names title marker_symbols
      marker_colors ci cd)
      = validate df chart_type num_signals signal_column_names := by
  unfold equity_chart_with_signals
  cases hv : validate df chart_type num_signals signal_column_names with
  | some e => simp [raisedError]
  | none =>
      cases hb : buildCore df start_date end_date chart_type price_column
          num_signals signal_column_names title marker_symbols marker_colors
          ci cd with
      | none => simp [raisedError]
      | some o => simp [raisedError]

/-- When the chart type is valid (and, for candlestick, no required column
is missing), validation reduces to the two signal-configuration checks. -/
theorem validate_passes_chart (df : DataFrame) (chart_type : String)
    (num_signals : Int) (signal_column_names : Option (List String))
    (hreach : chart_type = "line" ∨ (chart_type = "candlestick" ∧
      required_cols.filter (fun c => !(df.columns.contains c)) = [])) :
    validate df chart_type num_signals signal_column_names =
      (if 0 < num_signals ∧ signal_column_names = none then
        some .signalNamesAbsent
      else
        match signal_column_names with
        | some l =>
            if (l.length : Int) ≠ num_signals then
              some (.signalLengthMismatch l.length num_signals)
            else none
        | none => none) := by
  rcases hreach with h | ⟨h, hm⟩
  · subst h
    unfold validate
    rw [if_neg (by decide)]
    exact if_neg (fun hh => absurd hh.1 (by decide))
  · subst h
    unfold validate
    rw [if_neg (by decide)]
    refine if_neg ?_
    rintro ⟨-, hne⟩
    exact hne hm

/-! ### C8 -/

/-- C8 (confirmed): for every chart-type string other than "line" and
"candlestick", the call fails with InvalidChartType, and it does so inside
the validation block, i.e. synchronously before any other processing. -/
theorem C8_invalid_chart_type (df : DataFrame) (start_date end_date : Int)
    (chart_type price_column : String) (num_signals : Int)
    (signal_column_names : Option (List String)) (title : String)
    (marker_symbols marker_colors : Option (List String)) (ci cd : String)
    (h1 : chart_type ≠ "line") (h2 : chart_type ≠ "candlestick") :
    validate df chart_type num_signals signal_column_names
      = some .invalidChartType ∧
    equity_chart_with_signals df start_date end_date chart_type price_column
      num_signals signal_column_names title marker_symbols marker_colors ci cd
      = some (.error .invalidChartType) := by
  have hv : validate df chart_type num_signals signal_column_names
      = some .invalidChartType := by
    simp [validate, h1, h2]
  refine ⟨hv, ?_⟩
  unfold equity_chart_with_signals
  rw [hv]

/-- C8 witness at the concrete unsupported chart type "bogus". -/
theorem C8_witness :
    validate dfLine "bogus" 0 none = some .invalidChartType ∧
    equity_chart_with_signals dfLine 0 100 "bogus" "close" 0 none "t" none
      none "green" "red" = some (.error .invalidChartType) :=
  C8_invalid_chart_type dfLine 0 100 "bogus" "close" 0 none "t" none none
    "green" "red" (by decide) (by decide)

/-! ### C5 -/

/-- C5 (confirmed): a candlestick call on a table missing at least one of
the OHLC columns fails with MissingColumns carrying exactly the set of
required columns absent from the table. -/
theorem C5_missing_columns (df : DataFrame) (start_date end_date : Int)
    (chart_type price_column : String) (num_signals : Int)
    (signal_column_names : Option (List String)) (title : String)
    (marker_symbols marker_colors : Option (List String)) (ci cd : String)
    (hct : chart_type = "candlestick")
    (hmiss : ∃ c ∈ required_cols, df.columns.contains c = false) :
    equity_chart_with_signals df start_date end_date chart_type price_column
      num_signals signal_column_names title marker_symbols marker_colors ci cd
      = some (.error (.missingColumns
          (required_cols.filter (fun c => !(df.columns.contains c))))) ∧
    ∀ c, c ∈ required_cols.filter (fun c => !(df.columns.contains c)) ↔
      c ∈ required_cols ∧ df.columns.contains c = false := by
  subst hct
  have hne : required_cols.filter (fun c => !(df.columns.contains c)) ≠ [] := by
    obtain ⟨c, hc, hnc⟩ := hmiss
    exact List.ne_nil_of_mem (List.mem_filter.2 ⟨hc, by simpa using hnc⟩)
  have hv : validate df "candlestick" num_signals signal_column_names
      = some (.missingColumns
          (required_cols.filter (fun c => !(df.columns.contains c)))) := by
    unfold validate
    rw [if_neg (by decide)]
    exact if_pos ⟨rfl, hne⟩
  refine ⟨?_, ?_⟩
  · unfold equity_chart_with_signals
    rw [hv]
  · intro c
    simp [List.mem_filter]

/-- C5 witness: a table with only a `close` column; the reported missing set
evaluates to exactly `["open", "high", "low"]`. -/
theorem C5_witness :
    equity_chart_with_signals dfLine 0 100 "candlestick" "close" 0 none "t"
      none none "green" "red"
      = some (.error (.missingColumns
          (required_cols.filter (fun c => !(dfLine.columns.contains c))))) ∧
    required_cols.filter (fun c => !(dfLine.columns.contains c))
      = ["open", "high", "low"] :=
  ⟨(C5_missing_columns dfLine 0 100 "candlestick" "close" 0 none "t" none
      none "green" "red" rfl ⟨"open", by decide, by decide⟩).1, by decide⟩

/-! ### C4 -/

/-- C4 (confirmed): with a positive signal count and a valid chart
configuration (so the earlier fail-fast checks pass), an absent or
length-mismatched signal-name list makes the call fail with an error of the
SignalConfigMismatch kind, and the raised error comes from the validation
block, before any trace is built. -/
theorem C4_signal_config_mismatch (df : DataFrame) (start_date end_date : Int)
    (chart_type price_column : String) (num_signals : Int)
    (signal_column_names : Option (List String)) (title : String)
    (marker_symbols marker_colors : Option (List String)) (ci cd : String)
    (hn : 0 < num_signals)
    (hreach : chart_type = "line" ∨ (chart_type = "candlestick" ∧
      required_cols.filter (fun c => !(df.columns.contains c)) = []))
    (hbad : signal_column_names = none ∨
      ∃ l, signal_column_names = some l ∧ (l.length : Int) ≠ num_signals) :
    (validate df chart_type num_signals signal_column_names).any
      ChartError.isSignalConfigMismatch = true ∧
    raisedError (equity_chart_with_signals df start_date end_date chart_type
      price_column num_signals signal_column_names title marker_symbols
      marker_colors ci cd)
      = validate df chart_type num_signals signal_column_names := by
  have hv := validate_passes_chart df chart_type num_signals
    signal_column_names hreach
  refine ⟨?_, raisedError_eq_validate df start_date end_date chart_type
    price_column num_signals signal_column_names title marker_symbols
    marker_colors ci cd⟩
  rcases hbad with hnone | ⟨l, hl, hlen⟩
  · subst hnone
    rw [hv]
    simp [hn, ChartError.isSignalConfigMismatch]
  · subst hl
    rw [hv]
    simp [hlen, ChartError.isSignalConfigMismatch]

/-- C4 witness: two declared signals, no name list. -/
theorem C4_witness :
    (validate dfLine "line" 2 none).any ChartError.isSignalConfigMismatch
      = true ∧
    raisedError (equity_chart_with_signals dfLine 0 100 "line" "close" 2 none
      "t" none none "green" "red") = validate dfLine "line" 2 none :=
  C4_signal_config_mismatch dfLine 0 100 "line" "close" 2 none "t" none none
    "green" "red" (by decide) (Or.inl rfl) (Or.inl rfl)

/-! ### C9 -/

/-- C9 (confirmed): with signal count 0 but a supplied non-empty name list
(and a valid chart configuration), the call fails with the length-mismatch
validation error — the length check fires whenever the name list is
supplied, not only for positive counts. -/
theorem C9_zero_count_nonempty_names (df : DataFrame)
    (start_date end_date : Int) (chart_type price_column : String)
    (l : List String) (title : String)
    (marker_symbols marker_colors : Option (List String)) (ci cd : String)
    (hne : l ≠ [])
    (hreach : chart_type = "line" ∨ (chart_type = "candlestick" ∧
      required_cols.filter (fun c => !(df.columns.contains c)) = [])) :
    validate df chart_type 0 (some l)
      = some (.signalLengthMismatch l.length 0) ∧
    equity_chart_with_signals df start_date end_date chart_type price_column
      0 (some l) title marker_symbols marker_colors ci cd
      = some (.error (.signalLengthMismatch l.length 0)) := by
  have hv : validate df chart_type 0 (some l)
      = some (.signalLengthMismatch l.length 0) := by
    rw [validate_passes_chart df chart_type 0 (some l) hreach]
    have : (l.length : Int) ≠ 0 := by
      simpa using hne
    simp [this]
  refine ⟨hv, ?_⟩
  unfold equity_chart_with_signals
  rw [hv]

/-- C9 witness: one name supplied with `num_signals = 0`. -/
theorem C9_witness :
    validate dfLine "line" 0 (some ["s1"])
      = some (.signalLengthMismatch 1 0) ∧
    equity_chart_with_signals dfLine 0 100 "line" "close" 0 (some ["s1"]) "t"
      none none "green" "red"
      = some (.error (.signalLengthMismatch 1 0)) :=
  C9_zero_count_nonempty_names dfLine 0 100 "line" "close" ["s1"] "t" none
    none "green" "red" (by decide) (Or.inl rfl)

/-! ### C10 -/

/-- C10 (confirmed): a negative signal count with an absent signal-name list
(and a valid chart configuration) raises no validation error; the call
returns a figure containing the price trace and zero marker traces. -/
theorem C10_negative_signal_count (df : DataFrame) (start_date end_date : Int)
    (chart_type price_column : String) (num_signals : Int) (title : String)
    (marker_symbols marker_colors : Option (List String)) (ci cd : String)
    (hn : num_signals < 0)
    (hreach : chart_type = "line" ∨ (chart_type = "candlestick" ∧
      required_cols.filter (fun c => !(df.columns.contains c)) = [])) :
    validate df chart_type num_signals none = none ∧
    figureSatisfies (fun out => out.traces.length == 1 &&
        out.traces.all (fun t => !(t.isMarker)))
      (equity_chart_with_signals df start_date end_date chart_type
        price_column num_signals none title marker_symbols marker_colors
        ci cd) = true := by
  have hnt : num_signals.toNat = 0 := Int.toNat_of_nonpos (le_of_lt hn)
  have hv : validate df chart_type num_signals none = none := by
    rw [validate_passes_chart df chart_type num_signals none hreach]
    exact if_neg (fun h => absurd h.1 (by omega))
  have hs := growList_of_le (marker_symbols.getD default_symbols) num_signals
    (by have := Int.natCast_nonneg (marker_symbols.getD default_symbols).length; omega)
  have hc := growList_of_le (marker_colors.getD default_colors) num_signals
    (by have := Int.natCast_nonneg (marker_colors.getD default_colors).length; omega)
  refine ⟨hv, ?_⟩
  unfold equity_chart_with_signals
  rw [hv]
  unfold buildCore
  rw [hs, hc]
  simp only [Option.map_some]
  unfold figureSatisfies
  unfold mkOutcome
  simp only [hnt, List.range_zero, List.map_nil]
  by_cases hline : chart_type = "line"
  · simp [hline, Trace.isMarker]
  · simp [hline, Trace.isMarker]

/-- C10 witness: `num_signals = -2` with no name list on a line chart. -/
theorem C10_witness :
    validate dfLine "line" (-2) none = none ∧
    figureSatisfies (fun out => out.traces.length == 1 &&
        out.traces.all (fun t => !(t.isMarker)))
      (equity_chart_with_signals dfLine 0 100 "line" "close" (-2) none "t"
        none none "green" "red") = true :=
  C10_negative_signal_count dfLine 0 100 "line" "close" (-2) "t" none none
    "green" "red" (by decide) (Or.inl rfl)

/-! ### C3 -/

/-- C3 as stated is false: this input passes validation (conjunct one), yet
with the supplied empty marker-color list and `num_signals = 1` the growth
loop `while len(marker_colors) < num_signals: marker_colors.extend(...)`
never terminates, so the call returns no figure (modelled by `none`). -/
theorem C3_counterexample :
    validate dfLine "line" 1 (some ["s1"]) = none ∧
    equity_chart_with_signals dfLine 0 100 "line" "close" 1 (some ["s1"]) "t"
      none (some []) "green" "red" = none :=
  ⟨rfl, rfl⟩

/-- C3 (corrected): every input that passes validation and whose supplied
marker symbol/color lists are non-empty (or absent, so the non-empty default
palettes are used) terminates with a figure returned. -/
theorem C3_termination (df : DataFrame) (start_date end_date : Int)
    (chart_type price_column : String) (num_signals : Int)
    (signal_column_names : Option (List String)) (title : String)
    (marker_symbols marker_colors : Option (List String)) (ci cd : String)
    (hv : validate df chart_type num_signals signal_column_names = none)
    (hs : ∀ l, marker_symbols = some l → l ≠ [])
    (hc : ∀ l, marker_colors = some l → l ≠ []) :
    figureSatisfies (fun _ => true)
      (equity_chart_with_signals df start_date end_date chart_type
        price_column num_signals signal_column_names title marker_symbols
        marker_colors ci cd) = true := by
  have hs' : marker_symbols.getD default_symbols ≠ [] := by
    cases hms : marker_symbols with
    | none => decide
    | some xs => exact hs xs hms
  have hc' : marker_colors.getD default_colors ≠ [] := by
    cases hmc : marker_colors with
    | none => decide
    | some xs => exact hc xs hmc
  obtain ⟨syms, hsy, -, -⟩ := growList_of_ne_nil _ num_signals hs'
  obtain ⟨cols, hco, -, -⟩ := growList_of_ne_nil _ num_signals hc'
  unfold equity_chart_with_signals
  rw [hv]
  unfold buildCore
  rw [hsy, hco]
  rfl

/-- C3 witness: a validated call with both marker lists absent returns a
figure. -/
theorem C3_witness :
    figureSatisfies (fun _ => true)
      (equity_chart_with_signals dfLine 0 100 "line" "close" 0 none "t" none
        none "green" "red") = true :=
  C3_termination dfLine 0 100 "line" "close" 0 none "t" none none "green"
    "red" rfl (fun _ h => nomatch h) (fun _ h => nomatch h)

/-! ### C1 -/

/-- C1 as stated is false at the supplied empty marker list: doubling the
empty list never reaches length ≥ 5, so there is no final style list at all
(the Python loop diverges and the whole call returns nothing), rather than
wraparound indexing into a list of length ≥ 5. -/
theorem C1_counterexample :
    growList ([] : List String) 5 = none ∧
    equity_chart_with_signals dfTen 3 7 "line" "close" 5
      (some ["s1", "s2", "s3", "s4", "s5"]) "t" (some []) none "green" "red"
      = none :=
  ⟨by decide, by rfl⟩

/-- C1 (corrected): for every signal count and every marker configuration
whose supplied lists are non-empty (absent lists use the fixed 7-entry
default palettes): the resolution loop terminates; the final list is at
least as long as the signal count; the original list is a prefix of the
final one (repeated by doubling, possibly overshooting, never truncated);
and wraparound indexing `i % length` into the final list is always in
range. -/
theorem C1_marker_cycling (marker_symbols marker_colors : Option (List String))
    (num_signals : Int)
    (hs : ∀ l, marker_symbols = some l → l ≠ [])
    (hc : ∀ l, marker_colors = some l → l ≠ []) :
    default_symbols.length = 7 ∧ default_colors.length = 7 ∧
    ∃ syms cols,
      growList (marker_symbols.getD default_symbols) num_signals = some syms ∧
      growList (marker_colors.getD default_colors) num_signals = some cols ∧
      num_signals ≤ (syms.length : Int) ∧ num_signals ≤ (cols.length : Int) ∧
      marker_symbols.getD default_symbols <+: syms ∧
      marker_colors.getD default_colors <+: cols ∧
      (∀ i : Nat, i % syms.length < syms.length) ∧
      (∀ i : Nat, i % cols.length < cols.length) := by
  have hs' : marker_symbols.getD default_symbols ≠ [] := by
    cases hms : marker_symbols with
    | none => decide
    | some xs => exact hs xs hms
  have hc' : marker_colors.getD default_colors ≠ [] := by
    cases hmc : marker_colors with
    | none => decide
    | some xs => exact hc xs hmc
  obtain ⟨syms, h1, h2, h3⟩ := growList_of_ne_nil _ num_signals hs'
  obtain ⟨cols, g1, g2, g3⟩ := growList_of_ne_nil _ num_signals hc'
  have hsl : 0 < syms.length :=
    lt_of_lt_of_le (List.length_pos.2 hs') h3.length_le
  have hcl : 0 < cols.length :=
    lt_of_lt_of_le (List.length_pos.2 hc') g3.length_le
  exact ⟨rfl, rfl, syms, cols, h1, g1, h2, g2, h3, g3,
    fun i => Nat.mod_lt i hsl, fun i => Nat.mod_lt i hcl⟩

/-- C1 witness: a supplied symbol list of length 2 with signal count 5 is
doubled to length 8 (overshooting 5, never truncated), and every wraparound
index is in range. -/
theorem C1_witness :
    (default_symbols.length = 7 ∧ default_colors.length = 7 ∧
     ∃ syms cols,
       growList ((some ["a", "b"] : Option (List String)).getD
         default_symbols) 5 = some syms ∧
       growList ((none : Option (List String)).getD default_colors) 5
         = some cols ∧
       (5 : Int) ≤ (syms.length : Int) ∧ (5 : Int) ≤ (cols.length : Int) ∧
       (some ["a", "b"] : Option (List String)).getD default_symbols
         <+: syms ∧
       (none : Option (List String)).getD default_colors <+: cols ∧
       (∀ i : Nat, i % syms.length < syms.length) ∧
       (∀ i : Nat, i % cols.length < cols.length)) ∧
    growList ["a", "b"] 5 = some ["a", "b", "a", "b", "a", "b", "a", "b"] :=
  ⟨C1_marker_cycling (some ["a", "b"]) none 5
      (fun l h => by cases h; decide) (fun _ h => nomatch h),
    by decide⟩

/-! ### C2 -/

/-- C2 as stated is false: with the supplied marker symbol list
`["a", "b"]` and 5 signals, after the call the caller's list has been
extended in place to 8 elements, so a caller-supplied argument was mutated. -/
theorem C2_counterexample :
    (equity_chart_with_signals dfLine 0 100 "line" "close" 5
        (some ["s1", "s2", "s3", "s4", "s5"]) "t" (some ["a", "b"]) none
        "green" "red").map (Except.map (fun o => o.symbols_after))
      = some (.ok (some ["a", "b", "a", "b", "a", "b", "a", "b"])) ∧
    (["a", "b", "a", "b", "a", "b", "a", "b"] : List String) ≠ ["a", "b"] :=
  ⟨by rfl, by decide⟩

/-- C2 (corrected): the call performs no I/O and never mutates the input
table (it works on a filtered copy, and the embedding's table is only read);
however a supplied marker symbol/color list shorter than the signal count is
extended in place.  Whenever each supplied marker list is already at least
as long as the signal count, neither list is mutated: the caller-visible
contents after the call equal the arguments. -/
theorem C2_no_mutation_when_long_enough (df : DataFrame)
    (start_date end_date : Int) (chart_type price_column : String)
    (num_signals : Int) (signal_column_names : Option (List String))
    (title : String) (marker_symbols marker_colors : Option (List String))
    (ci cd : String) (out : Outcome)
    (hok : equity_chart_with_signals df start_date end_date chart_type
      price_column num_signals signal_column_names title marker_symbols
      marker_colors ci cd = some (.ok out))
    (hs : ∀ l, marker_symbols = some l → num_signals ≤ (l.length : Int))
    (hc : ∀ l, marker_colors = some l → num_signals ≤ (l.length : Int)) :
    out.symbols_after = marker_symbols ∧ out.colors_after = marker_colors := by
  obtain ⟨hv, hb⟩ := equity_ok_inversion df start_date end_date chart_type
    price_column num_signals signal_column_names title marker_symbols
    marker_colors ci cd out hok
  obtain ⟨syms, cols, hsy, hco, hout⟩ := buildCore_inversion df start_date
    end_date chart_type price_column num_signals signal_column_names title
    marker_symbols marker_colors ci cd out hb
  subst hout
  constructor
  · cases hms : marker_symbols with
    | none => simp [mkOutcome, hms]
    | some l =>
        rw [hms] at hsy
        rw [show (some l : Option (List String)).getD default_symbols = l
          from rfl] at hsy
        rw [growList_of_le l num_signals (hs l hms)] at hsy
        cases hsy
        simp [mkOutcome, hms]
  · cases hmc : marker_colors with
    | none => simp [mkOutcome, hmc]
    | some l =>
        rw [hmc] at hco
        rw [show (some l : Option (List String)).getD default_colors = l
          from rfl] at hco
        rw [growList_of_le l num_signals (hc l hmc)] at hco
        cases hco
        simp [mkOutcome, hmc]

/-- C2 witness: a call with two signals and a supplied 3-element symbol list
(long enough), whose caller-visible lists afterwards equal the arguments. -/
theorem C2_witness :
    c2Out.symbols_after = some ["a", "b", "c"] ∧
    c2Out.colors_after = (none : Option (List String)) :=
  C2_no_mutation_when_long_enough dfLine 0 100 "line" "close" 2
    (some ["s1", "s2"]) "t" (some ["a", "b", "c"]) none "green" "red" c2Out
    rfl (fun l h => by cases h; decide) (fun _ h => nomatch h)

/-! ### C6 -/

/-- C6 (confirmed): for every table and date range, a successful line-chart
call slices the table to the inclusive range `[start_date, end_date]`: the
primary price trace (the first trace of the figure) holds exactly the
timestamps in that range — a sublist of the original index, so in original
ascending order — paired with the price-column values of those rows. -/
theorem C6_inclusive_date_slice (df : DataFrame) (start_date end_date : Int)
    (price_column : String) (num_signals : Int)
    (signal_column_names : Option (List String)) (title : String)
    (marker_symbols marker_colors : Option (List String)) (ci cd : String)
    (out : Outcome)
    (hok : equity_chart_with_signals df start_date end_date "line"
      price_column num_signals signal_column_names title marker_symbols
      marker_colors ci cd = some (.ok out)) :
    out.traces.head? = some (.line (pyCapitalize price_column ++ " Price")
      ((df.rows.filter (fun r =>
          decide (start_date ≤ r.ts) && decide (r.ts ≤ end_date))).map
        (fun r => r.ts))
      ((df.rows.filter (fun r =>
          decide (start_date ≤ r.ts) && decide (r.ts ≤ end_date))).map
        (fun r => r.num price_column))) ∧
    List.Sublist
      ((df.rows.filter (fun r =>
          decide (start_date ≤ r.ts) && decide (r.ts ≤ end_date))).map
        (fun r => r.ts))
      (df.rows.map (fun r => r.ts)) ∧
    ∀ t : Int,
      t ∈ ((df.rows.filter (fun r =>
          decide (start_date ≤ r.ts) && decide (r.ts ≤ end_date))).map
        (fun r => r.ts)) ↔
      ∃ r ∈ df.rows, start_date ≤ r.ts ∧ r.ts ≤ end_date ∧ r.ts = t := by
  obtain ⟨hv, hb⟩ := equity_ok_inversion df start_date end_date "line"
    price_column num_signals signal_column_names title marker_symbols
    marker_colors ci cd out hok
  obtain ⟨syms, cols, hsy, hco, hout⟩ := buildCore_inversion df start_date
    end_date "line" price_column num_signals signal_column_names title
    marker_symbols marker_colors ci cd out hb
  subst hout
  refine ⟨?_, ?_, ?_⟩
  · simp [mkOutcome]
  · exact (List.filter_sublist _).map _
  · intro t
    simp only [List.mem_map, List.mem_filter, Bool.and_eq_true,
      decide_eq_true_eq]
    constructor
    · rintro ⟨r, ⟨hr, h1, h2⟩, ht⟩
      exact ⟨r, hr, h1, h2, ht⟩
    · rintro ⟨r, hr, h1, h2, ht⟩
      exact ⟨r, ⟨hr, h1, h2⟩, ht⟩

/-- C6 witness: a 10-row table (timestamps 1..10) sliced to `[3, 7]` yields
a price trace with exactly rows 3-7 in original order. -/
theorem C6_witness :
    c6Out.traces.head? = some (.line "Close Price" [3, 4, 5, 6, 7]
      [30, 40, 50, 60, 70]) ∧
    List.Sublist ([3, 4, 5, 6, 7] : List Int) (dfTen.rows.map (fun r => r.ts)) := by
  obtain ⟨h1, h2, -⟩ := C6_inclusive_date_slice dfTen 3 7 "close" 0 none "t"
    none none "green" "red" c6Out rfl
  constructor
  · exact h1
  · exact h2

/-! ### C7 -/

/-- C7 (confirmed): in every successful call with signal names `l`, the
figure has exactly one marker trace per signal index `i` (after the price
trace): it is labeled with that signal's column name, holds exactly the
points (timestamp, price-column value) of the date-filtered rows whose
boolean signal cell is true, and is styled with the resolved symbol and
color at wraparound index `i`. -/
theorem C7_marker_traces (df : DataFrame) (start_date end_date : Int)
    (chart_type price_column : String) (num_signals : Int) (l : List String)
    (title : String) (marker_symbols marker_colors : Option (List String))
    (ci cd : String) (out : Outcome) (syms cols : List String)
    (hok : equity_chart_with_signals df start_date end_date chart_type
      price_column num_signals (some l) title marker_symbols marker_colors
      ci cd = some (.ok out))
    (hsyms : growList (marker_symbols.getD default_symbols) num_signals
      = some syms)
    (hcols : growList (marker_colors.getD default_colors) num_signals
      = some cols) :
    out.traces.length = num_signals.toNat + 1 ∧
    ∀ i, i < num_signals.toNat →
      out.traces[i + 1]? = some (.markers (l.getD i "")
        (((df.rows.filter (fun r =>
            decide (start_date ≤ r.ts) && decide (r.ts ≤ end_date))).filter
          (fun r => r.flag (l.getD i ""))).map (fun r => r.ts))
        (((df.rows.filter (fun r =>
            decide (start_date ≤ r.ts) && decide (r.ts ≤ end_date))).filter
          (fun r => r.flag (l.getD i ""))).map (fun r => r.num price_column))
        (syms.getD (i % syms.length) "")
        (cols.getD (i % cols.length) "")) ∧
      ∀ t : Int,
        t ∈ (((df.rows.filter (fun r =>
            decide (start_date ≤ r.ts) && decide (r.ts ≤ end_date))).filter
          (fun r => r.flag (l.getD i ""))).map (fun r => r.ts)) ↔
        ∃ r ∈ df.rows, start_date ≤ r.ts ∧ r.ts ≤ end_date ∧
          r.flag (l.getD i "") = true ∧ r.ts = t := by
  obtain ⟨hv, hb⟩ := equity_ok_inversion df start_date end_date chart_type
    price_column num_signals (some l) title marker_symbols marker_colors
    ci cd out hok
  obtain ⟨syms0, cols0, hsy, hco, hout⟩ := buildCore_inversion df start_date
    end_date chart_type price_column num_signals (some l) title
    marker_symbols marker_colors ci cd out hb
  rw [hsyms] at hsy
  rw [hcols] at hco
  cases hsy
  cases hco
  subst hout
  constructor
  · simp [mkOutcome]
  · intro i hi
    constructor
    · simp [mkOutcome, List.getElem?_map, List.getElem?_range, hi]
    · intro t
      simp only [List.mem_map, List.mem_filter, Bool.and_eq_true,
        decide_eq_true_eq]
      constructor
      · rintro ⟨r, ⟨⟨hr, h1, h2⟩, h3⟩, ht⟩
        exact ⟨r, hr, h1, h2, h3, ht⟩
      · rintro ⟨r, hr, h1, h2, h3, ht⟩
        exact ⟨r, ⟨⟨hr, h1, h2⟩, h3⟩, ht⟩

/-- C7 witness: one signal column true on exactly 2 of the filtered rows
(timestamps 4 and 6) yields a marker trace with exactly those 2 points,
styled with the first default symbol/color pair and labeled `sig`. -/
theorem C7_witness :
    c7Out.traces.length = (1 : Int).toNat + 1 ∧
    c7Out.traces[1]? = some (.markers "sig" [4, 6] [40, 60] "triangle-down"
      "green") := by
  obtain ⟨h1, h2⟩ := C7_marker_traces dfTen 3 7 "line" "close" 1 ["sig"] "t"
    none none "green" "red" c7Out default_symbols default_colors rfl rfl rfl
  refine ⟨h1, ?_⟩
  exact ((h2 0 (by decide)).1).trans (by decide)
